import Mathlib

/-!
Verification development for the `homelocal-auth-react` client-side
authentication toolkit.  The development shallowly embeds the core logic of
the repository:

* the Token Manager (`src/TokenManager.ts`, compiled copy
  `dist/TokenManager.js`): dual memory/sessionStorage token store with an
  at-most-one-in-flight renewal guard (`ensureAccessToken`);
* the OAuth flow client (`dist/oauth.js`) and the callback handler of the
  `useOAuth` hook (`src/useOAuth.ts` and its compiled copy
  `dist/useOAuth.js`), including the registration-bypass state handling;
* the silent-auth negotiator (`dist/silentAuth.js`): hidden-iframe
  postMessage handshake with origin/tag/state filtering and a timeout;
* the retry/401 response interceptor of `src/axios.ts`.

Conventions of the embedding: JavaScript `Date.now()` instants are `Int`
epoch-milliseconds passed explicitly as `now`; `sessionStorage` is an
association list of string keys/values, with an `available` flag modelling
environments where any access throws (the `try`/`catch` wrappers of the
source become explicit `if available` tests); JS promises awaited by several
callers are identified by numeric tickets; values produced by `JSON.parse`
are modelled by the `JValue` type, and the composite `JSON.parse ∘ atob`
applied to the OAuth `state` parameter is an explicit function parameter
`decode` (a parse failure in either stage is `none`).  `parseInt` is
modelled as a full-string decimal parse, which agrees with the source on
every string that the Token Manager itself writes (`expiry.toString()`).
-/

namespace HomelocalAuth

/-! ## Association-list model of string key/value storage -/

/-- Lookup of the first binding of key `k` (the semantics of
`URLSearchParams.get` and of `sessionStorage.getItem` on our storage
model); `none` plays the role of JS `null`. -/
def getKV : List (String × String) → String → Option String
  | [], _ => none
  | (k', v) :: rest, k => if k' = k then some v else getKV rest k

/-- Model of `sessionStorage.setItem`: replaces the first binding of the
key, or appends one. -/
def setKV : List (String × String) → String → String → List (String × String)
  | [], k, v => [(k, v)]
  | (k', v') :: rest, k, v =>
      if k' = k then (k, v) :: rest else (k', v') :: setKV rest k v

/-- Model of `sessionStorage.removeItem`: removes every binding of the key. -/
def removeKV : List (String × String) → String → List (String × String)
  | [], _ => []
  | (k', v') :: rest, k =>
      if k' = k then removeKV rest k else (k', v') :: removeKV rest k

theorem getKV_setKV_self (l : List (String × String)) (k v : String) :
    getKV (setKV l k v) k = some v := by
  induction l with
  | nil => simp [setKV, getKV]
  | cons hd tl ih =>
      obtain ⟨k', v'⟩ := hd
      by_cases h : k' = k <;> simp [setKV, getKV, h, ih]

theorem getKV_setKV_other (l : List (String × String)) (k k' v : String)
    (h : k' ≠ k) : getKV (setKV l k' v) k = getKV l k := by
  induction l with
  | nil => simp [setKV, getKV, h]
  | cons hd tl ih =>
      obtain ⟨k₀, v₀⟩ := hd
      by_cases h₀ : k₀ = k' <;> simp [setKV, getKV, h₀, h, ih]

theorem getKV_removeKV_self (l : List (String × String)) (k : String) :
    getKV (removeKV l k) k = none := by
  induction l with
  | nil => simp [removeKV, getKV]
  | cons hd tl ih =>
      obtain ⟨k₀, v₀⟩ := hd
      by_cases h₀ : k₀ = k <;> simp [removeKV, getKV, h₀, ih]

/-- Truthiness of a JS string-or-null value (`null` and `""` are falsy). -/
def strTruthy : Option String → Bool
  | none => false
  | some s => s ≠ ""

/-! ## Values produced by `JSON.parse` -/

/-- Model of a JavaScript value produced by `JSON.parse`. -/
inductive JValue where
  | jnull
  | jbool (b : Bool)
  | jnum (n : Int)
  | jstr (s : String)
  | jarr (elems : List JValue)
  | jobj (fields : List (String × JValue))

/-- Property access `v.k` on a decoded value: defined (i.e. `some`) exactly
on objects having the field, mirroring `'k' in v` followed by `v.k`. -/
def jGet : JValue → String → Option JValue
  | .jobj fields, k => jGetFields fields k
  | _, _ => none
where
  jGetFields : List (String × JValue) → String → Option JValue
  | [], _ => none
  | (k', v) :: rest, k => if k' = k then some v else jGetFields rest k

/-- JS truthiness of a decoded value. -/
def jTruthy : JValue → Bool
  | .jnull => false
  | .jbool b => b
  | .jnum n => n ≠ 0
  | .jstr s => s ≠ ""
  | .jarr _ => true
  | .jobj _ => true

/-- Truthiness of an optional decoded value (`undefined` is falsy). -/
def jTruthyOpt : Option JValue → Bool
  | none => false
  | some v => jTruthy v

/-! ## Token Manager (`src/TokenManager.ts` / `dist/TokenManager.js`)

`createTokenManager` closes over `memoryToken`, `memoryExpiry` and
`renewalPromise`; we gather the closure state, the `sessionStorage`
contents, and observational bookkeeping (number of `tokenFetcher`
invocations, arguments passed to `onRenewalFailure`) into `TMState`.  The
in-flight `renewalPromise` is identified by a numeric ticket drawn from
`nextPid`. -/

/-- Token response shape relevant to the manager (`types.ts`
`TokenResponse`; the remaining fields are not read by the core). -/
structure TokenResponse where
  access_token : String
  expires_in : Int
deriving DecidableEq, Repr

/-- Configuration of `createTokenManager`; `hasFetcher` records whether a
`tokenFetcher` was supplied (renewal is opt-in). -/
structure TMConfig where
  storageKey : String
  expiryKey : String
  expiryBuffer : Int
  hasFetcher : Bool
deriving DecidableEq, Repr

/-- Session storage as seen by the Token Manager: when `available = false`
every access throws, which the manager's `try`/`catch` wrappers swallow. -/
structure Storage where
  available : Bool
  items : List (String × String)
deriving DecidableEq, Repr

/-- State of one `createTokenManager` instance. -/
structure TMState where
  memoryToken : Option String
  memoryExpiry : Option Int
  storage : Storage
  renewal : Option Nat
  nextPid : Nat
  fetchCount : Nat
  failureCallbacks : List String
deriving DecidableEq, Repr

/-- The manager's `readStorage`: both `getItem`s under `try`, returning
`(null, null)` when storage is unavailable; the stored expiry string is
parsed (`expiryStr ? parseInt(expiryStr, 10) : null`). -/
def readStorage (cfg : TMConfig) (st : Storage) : Option String × Option Int :=
  if st.available then
    let token := getKV st.items cfg.storageKey
    let expiry : Option Int :=
      match getKV st.items cfg.expiryKey with
      | none => none
      | some s => if s = "" then none else s.toInt?
    (token, expiry)
  else (none, none)

/-- The manager's `writeStorage`: both `setItem`s under `try`; a throwing
storage leaves everything unchanged. -/
def writeStorage (cfg : TMConfig) (st : Storage) (token : String)
    (expiry : Int) : Storage :=
  if st.available then
    { st with items := setKV (setKV st.items cfg.storageKey token) cfg.expiryKey (toString expiry) }
  else st

/-- The manager's `clearStorage`: both `removeItem`s under `try`. -/
def clearStorage (cfg : TMConfig) (st : Storage) : Storage :=
  if st.available then
    { st with items := removeKV (removeKV st.items cfg.storageKey) cfg.expiryKey }
  else st

/-- `isTokenValid(token, expiry)`: false for a missing/empty token or a
missing expiry, otherwise `Date.now() < expiry`. -/
def isTokenValid (token : Option String) (expiry : Option Int) (now : Int) : Bool :=
  match token, expiry with
  | some t, some e => decide (t ≠ "") && decide (now < e)
  | _, _ => false

/-- `isExpiringSoonCheck(expiry)`: `Date.now() >= expiry - buffer*1000`,
false for a missing expiry. -/
def isExpiringSoonCheck (buffer : Int) (expiry : Option Int) (now : Int) : Bool :=
  match expiry with
  | none => false
  | some e => decide (now ≥ e - buffer * 1000)

/-- Core of `getToken()` on the fields it reads: returns the result together
with the (possibly promoted) memory fields.  Memory is checked first; a
valid stored credential is promoted to memory; otherwise `null` with memory
untouched. -/
def getTokenCore (cfg : TMConfig) (now : Int) (mt : Option String)
    (me : Option Int) (st : Storage) :
    Option String × Option String × Option Int :=
  if isTokenValid mt me now then (mt, mt, me)
  else if isTokenValid (readStorage cfg st).1 (readStorage cfg st).2 now then
    ((readStorage cfg st).1, readStorage cfg st)
  else (none, mt, me)

/-- `getToken()`: result plus the state after any promotion from storage. -/
def getTokenM (cfg : TMConfig) (now : Int) (s : TMState) :
    Option String × TMState :=
  let r := getTokenCore cfg now s.memoryToken s.memoryExpiry s.storage
  (r.1, { s with memoryToken := r.2.1, memoryExpiry := r.2.2 })

/-- `setToken(token, expiresIn)`: writes memory then best-effort storage. -/
def setTokenM (cfg : TMConfig) (now : Int) (token : String) (expiresIn : Int)
    (s : TMState) : TMState :=
  let expiryTime := now + expiresIn * 1000
  { s with memoryToken := some token, memoryExpiry := some expiryTime,
           storage := writeStorage cfg s.storage token expiryTime }

/-- `clearToken()`: wipes memory and best-effort storage. -/
def clearTokenM (cfg : TMConfig) (s : TMState) : TMState :=
  { s with memoryToken := none, memoryExpiry := none,
           storage := clearStorage cfg s.storage }

/-- `isExpiringSoon()`: memory expiry if present, else the stored expiry. -/
def isExpiringSoonM (cfg : TMConfig) (now : Int) (s : TMState) : Bool :=
  match s.memoryExpiry with
  | some e => isExpiringSoonCheck cfg.expiryBuffer (some e) now
  | none => isExpiringSoonCheck cfg.expiryBuffer (readStorage cfg s.storage).2 now

/-- `getExpiresIn()`: remaining whole seconds, clamped at 0; `null` when no
expiry is known. -/
def getExpiresInM (cfg : TMConfig) (now : Int) (s : TMState) : Option Int :=
  let expiry : Option Int :=
    match s.memoryExpiry with
    | some e => some e
    | none => (readStorage cfg s.storage).2
  match expiry with
  | none => none
  | some e => some (max 0 (Int.fdiv (e - now) 1000))

/-- What one call of `ensureAccessToken()` does before any suspension:
either it resolves immediately, or it awaits the renewal ticket `pid`. -/
inductive EnsureOutcome where
  | immediate (v : Option String)
  | awaitRenewal (pid : Nat)
deriving DecidableEq, Repr

/-- The synchronous prefix of `ensureAccessToken()`: the fresh-token
short-circuit, the no-fetcher short-circuit, the in-flight guard, and
otherwise the start of a renewal.  Starting a renewal invokes the fetcher
synchronously (the async IIFE runs up to `await tokenFetcher()` before
`renewalPromise` is assigned), so `fetchCount` is incremented here and the
new ticket is recorded in `renewal`. -/
def ensureAccessTokenStart (cfg : TMConfig) (now : Int) (s : TMState) :
    EnsureOutcome × TMState :=
  let r := getTokenM cfg now s
  let currentToken := r.1
  let s1 := r.2
  if strTruthy currentToken && !(isExpiringSoonM cfg now s1) then
    (.immediate currentToken, s1)
  else if !cfg.hasFetcher then
    (.immediate currentToken, s1)
  else
    match s1.renewal with
    | some pid => (.awaitRenewal pid, s1)
    | none =>
        (.awaitRenewal s1.nextPid,
         { s1 with renewal := some s1.nextPid, nextPid := s1.nextPid + 1,
                   fetchCount := s1.fetchCount + 1 })

/-- Result of the pending `tokenFetcher()` call. -/
inductive FetchOutcome where
  | ok (resp : TokenResponse)
  | err (e : String)
deriving DecidableEq, Repr

/-- Completion of the in-flight renewal IIFE: on success the token is stored
and the ticket resolves with it; on failure `onRenewalFailure` is invoked
with the error and the ticket resolves with `null` (the `catch` swallows the
exception, so `ensureAccessToken` never throws); in both cases the `finally`
clears `renewalPromise`.  The second component is the ticket together with
the value delivered to every caller awaiting it. -/
def renewalComplete (cfg : TMConfig) (now : Int) (outcome : FetchOutcome)
    (s : TMState) : TMState × Option (Nat × Option String) :=
  match s.renewal with
  | none => (s, none)
  | some pid =>
      match outcome with
      | .ok resp =>
          let s1 := setTokenM cfg now resp.access_token resp.expires_in s
          ({ s1 with renewal := none }, some (pid, some resp.access_token))
      | .err e =>
          ({ s with renewal := none,
                    failureCallbacks := s.failureCallbacks ++ [e] },
           some (pid, none))

/-- `n` consecutive synchronous prefixes of `ensureAccessToken()` (the
microtask interleaving of `n` concurrent callers before the fetcher
resolves), collecting each caller's outcome. -/
def ensureCalls (cfg : TMConfig) (now : Int) : Nat → TMState → TMState × List EnsureOutcome
  | 0, s => (s, [])
  | n + 1, s =>
      let r := ensureAccessTokenStart cfg now s
      let rest := ensureCalls cfg now n r.2
      (rest.1, r.1 :: rest.2)

/-- The state of a freshly created manager over the given storage. -/
def initTMState (st : Storage) : TMState :=
  ⟨none, none, st, none, 0, 0, []⟩

/-! ### Token Manager lemmas -/

theorem isTokenValid_true (t : Option String) (e : Option Int) (now : Int)
    (h : isTokenValid t e now = true) : ∃ a, t = some a ∧ a ≠ "" := by
  cases t with
  | none => simp [isTokenValid] at h
  | some a =>
      cases e with
      | none => simp [isTokenValid] at h
      | some b =>
          simp only [isTokenValid, Bool.and_eq_true, decide_eq_true_eq] at h
          exact ⟨a, rfl, h.1⟩

theorem getTokenCore_none (cfg : TMConfig) (now : Int) (mt : Option String)
    (me : Option Int) (st : Storage)
    (h : (getTokenCore cfg now mt me st).1 = none) :
    getTokenCore cfg now mt me st = (none, mt, me) := by
  unfold getTokenCore at h ⊢
  split at h
  · next hv => obtain ⟨a, ha, -⟩ := isTokenValid_true _ _ _ hv; simp [ha] at h
  · next hv =>
      split at h
      · next hv2 => obtain ⟨a, ha, -⟩ := isTokenValid_true _ _ _ hv2; simp [ha] at h
      · next hv2 => simp [hv, hv2]

theorem getTokenM_none (cfg : TMConfig) (now : Int) (s : TMState)
    (h : (getTokenM cfg now s).1 = none) : getTokenM cfg now s = (none, s) := by
  have hc : (getTokenCore cfg now s.memoryToken s.memoryExpiry s.storage).1 = none := h
  have := getTokenCore_none cfg now s.memoryToken s.memoryExpiry s.storage hc
  unfold getTokenM
  rw [this]

theorem ensure_inflight (cfg : TMConfig) (now : Int) (s : TMState) (p : Nat)
    (hf : cfg.hasFetcher = true) (htok : (getTokenM cfg now s).1 = none)
    (hren : s.renewal = some p) :
    ensureAccessTokenStart cfg now s = (.awaitRenewal p, s) := by
  unfold ensureAccessTokenStart
  rw [getTokenM_none cfg now s htok]
  simp [strTruthy, hf, hren]

theorem ensure_start_fetch (cfg : TMConfig) (now : Int) (s : TMState)
    (hf : cfg.hasFetcher = true) (htok : (getTokenM cfg now s).1 = none)
    (hren : s.renewal = none) :
    ensureAccessTokenStart cfg now s =
      (.awaitRenewal s.nextPid,
       { s with renewal := some s.nextPid, nextPid := s.nextPid + 1,
                fetchCount := s.fetchCount + 1 }) := by
  unfold ensureAccessTokenStart
  rw [getTokenM_none cfg now s htok]
  simp [strTruthy, hf, hren]

theorem ensureCalls_inflight (cfg : TMConfig) (now : Int) (s : TMState)
    (p : Nat) (n : Nat)
    (hf : cfg.hasFetcher = true) (htok : (getTokenM cfg now s).1 = none)
    (hren : s.renewal = some p) :
    ensureCalls cfg now n s = (s, List.replicate n (.awaitRenewal p)) := by
  induction n with
  | zero => simp [ensureCalls]
  | succ k ih =>
      simp [ensureCalls, ensure_inflight cfg now s p hf htok hren, ih,
        List.replicate_succ]

/-- C1: with a configured `tokenFetcher` and no valid cached token, `N ≥ 1`
calls to `ensureAccessToken()` made before the first fetcher invocation
resolves invoke the fetcher exactly once (`fetchCount` rises by one), all
`N` callers await the same renewal ticket, and when the fetch resolves that
single ticket delivers the same fetched token value to every caller. -/
theorem C1_at_most_one_renewal (cfg : TMConfig) (now : Int) (s : TMState)
    (N : Nat) (resp : TokenResponse)
    (hf : cfg.hasFetcher = true) (htok : (getTokenM cfg now s).1 = none)
    (hren : s.renewal = none) (hN : 1 ≤ N) :
    (ensureCalls cfg now N s).1.fetchCount = s.fetchCount + 1 ∧
    (ensureCalls cfg now N s).2 =
      List.replicate N (.awaitRenewal s.nextPid) ∧
    (renewalComplete cfg now (.ok resp) (ensureCalls cfg now N s).1).2 =
      some (s.nextPid, some resp.access_token) := by
  obtain ⟨m, rfl⟩ : ∃ m, N = m + 1 := ⟨N - 1, by omega⟩
  have hstart := ensure_start_fetch cfg now s hf htok hren
  have hframe :
      (getTokenM cfg now
        { s with renewal := some s.nextPid, nextPid := s.nextPid + 1,
                 fetchCount := s.fetchCount + 1 }).1 =
      (getTokenM cfg now s).1 := rfl
  have hcalls := ensureCalls_inflight cfg now
    { s with renewal := some s.nextPid, nextPid := s.nextPid + 1,
             fetchCount := s.fetchCount + 1 }
    s.nextPid m hf (hframe.trans htok) rfl
  refine ⟨?_, ?_, ?_⟩ <;>
    simp [ensureCalls, hstart, hcalls, List.replicate_succ, renewalComplete]

/-- C2: when the pending fetch rejects, the renewal ticket resolves with
`null` (the error is swallowed, never thrown), `onRenewalFailure` receives
the error, and the in-flight marker is cleared — also on success — so that
a subsequent `ensureAccessToken()` call (still without a valid token)
starts a fresh fetch. -/
theorem C2_renewal_failure (cfg : TMConfig) (now now2 : Int) (s : TMState)
    (pid : Nat) (e : String) (resp : TokenResponse)
    (hf : cfg.hasFetcher = true) (hren : s.renewal = some pid)
    (htok : (getTokenM cfg now2 s).1 = none) :
    (renewalComplete cfg now (.err e) s).1.renewal = none ∧
    (renewalComplete cfg now (.err e) s).2 = some (pid, none) ∧
    (renewalComplete cfg now (.err e) s).1.failureCallbacks =
      s.failureCallbacks ++ [e] ∧
    (renewalComplete cfg now (.ok resp) s).1.renewal = none ∧
    (ensureAccessTokenStart cfg now2 (renewalComplete cfg now (.err e) s).1).1 =
      .awaitRenewal s.nextPid ∧
    (ensureAccessTokenStart cfg now2 (renewalComplete cfg now (.err e) s).1).2.fetchCount =
      s.fetchCount + 1 := by
  have herr : renewalComplete cfg now (.err e) s =
      ({ s with renewal := none, failureCallbacks := s.failureCallbacks ++ [e] },
       some (pid, none)) := by
    unfold renewalComplete
    rw [hren]
  have hframe :
      (getTokenM cfg now2
        { s with renewal := none,
                 failureCallbacks := s.failureCallbacks ++ [e] }).1 =
      (getTokenM cfg now2 s).1 := rfl
  have hstart := ensure_start_fetch cfg now2
    { s with renewal := none, failureCallbacks := s.failureCallbacks ++ [e] }
    hf (hframe.trans htok) rfl
  refine ⟨?_, ?_, ?_, ?_, ?_, ?_⟩ <;>
    simp [herr, hstart, renewalComplete, hren]

/-- C3: with `expiryBuffer = 60`, immediately after `setToken(token, 3600)`
a call to `ensureAccessToken()` resolves synchronously with the cached
token, leaves the state untouched, and performs no fetcher invocation.  A
"token" here is a nonempty bearer string (the source's truthiness checks
treat `""` as the absence of a token). -/
theorem C3_fresh_token_no_fetch (cfg : TMConfig) (now : Int) (s : TMState)
    (tok : String) (hbuf : cfg.expiryBuffer = 60) (htok : tok ≠ "") :
    ensureAccessTokenStart cfg now (setTokenM cfg now tok 3600 s) =
      (.immediate (some tok), setTokenM cfg now tok 3600 s) ∧
    (ensureAccessTokenStart cfg now (setTokenM cfg now tok 3600 s)).2.fetchCount =
      s.fetchCount := by
  have hvalid : isTokenValid (some tok) (some (now + 3600000)) now = true := by
    simp [isTokenValid, htok]
  have hget : getTokenM cfg now (setTokenM cfg now tok 3600 s) =
      (some tok, setTokenM cfg now tok 3600 s) := by
    unfold getTokenM getTokenCore setTokenM
    simp [hvalid]
  have hsoon : isExpiringSoonM cfg now (setTokenM cfg now tok 3600 s) = false := by
    unfold isExpiringSoonM setTokenM
    simp [isExpiringSoonCheck, hbuf]
  have hmain : ensureAccessTokenStart cfg now (setTokenM cfg now tok 3600 s) =
      (.immediate (some tok), setTokenM cfg now tok 3600 s) := by
    unfold ensureAccessTokenStart
    rw [hget]
    simp [strTruthy, htok, hsoon]
  exact ⟨hmain, by rw [hmain]; rfl⟩

/-- C8: with the persistent storage layer throwing on every access
(`available = false`, every `try`/`catch` wrapper takes its catch branch so
no operation throws), `setToken` followed by `getToken` on the same instance
still returns the (nonempty) token from the memory layer while the storage
write is swallowed; a fresh instance returns `null`; and `isExpiringSoon`,
`getExpiresIn` and `clearToken` operate on the memory layer alone. -/
theorem C8_storage_unavailable (cfg : TMConfig) (now now2 now3 : Int)
    (s : TMState) (st : Storage) (tok : String) (ttl : Int)
    (hun : s.storage.available = false) (hstun : st.available = false)
    (htok : tok ≠ "") (hlt : now2 < now + ttl * 1000) :
    (getTokenM cfg now2 (setTokenM cfg now tok ttl s)).1 = some tok ∧
    (setTokenM cfg now tok ttl s).storage = s.storage ∧
    (getTokenM cfg now3 (initTMState st)).1 = none ∧
    isExpiringSoonM cfg now2 (setTokenM cfg now tok ttl s) =
      decide (now2 ≥ now + ttl * 1000 - cfg.expiryBuffer * 1000) ∧
    getExpiresInM cfg now2 (setTokenM cfg now tok ttl s) =
      some (max 0 (Int.fdiv (now + ttl * 1000 - now2) 1000)) ∧
    (clearTokenM cfg (setTokenM cfg now tok ttl s)).memoryToken = none ∧
    (clearTokenM cfg (setTokenM cfg now tok ttl s)).storage = s.storage := by
  have hw : writeStorage cfg s.storage tok (now + ttl * 1000) = s.storage := by
    unfold writeStorage
    simp [hun]
  have hvalid : isTokenValid (some tok) (some (now + ttl * 1000)) now2 = true := by
    simp [isTokenValid, htok]
    omega
  refine ⟨?_, ?_, ?_, ?_, ?_, ?_, ?_⟩
  · unfold getTokenM getTokenCore setTokenM
    simp [hvalid]
  · unfold setTokenM
    simp [hw]
  · unfold getTokenM getTokenCore readStorage initTMState
    simp [isTokenValid, hstun]
  · unfold isExpiringSoonM setTokenM
    simp [isExpiringSoonCheck]
  · unfold getExpiresInM setTokenM
    simp
  · rfl
  · unfold clearTokenM clearStorage setTokenM
    simp [hun, hw]

/-! ### Token Manager witnesses -/

/-- Concrete Token Manager configuration (all source defaults, fetcher
configured). -/
def tmCfgW : TMConfig := ⟨"access_token", "access_token_expiry", 60, true⟩

/-- Fresh manager over an available, empty session storage. -/
def tmStateW : TMState := initTMState ⟨true, []⟩

/-- Fresh manager over an unavailable session storage. -/
def tmStateUnW : TMState := initTMState ⟨false, []⟩

/-- Witness for C1: five calls on a fresh manager before the fetch resolves
yield one fetch, five waiters on ticket 0, and a shared token "tok". -/
theorem C1_at_most_one_renewal_witness :
    tmCfgW.hasFetcher = true ∧ (getTokenM tmCfgW 0 tmStateW).1 = none ∧
    tmStateW.renewal = none ∧ 1 ≤ 5 ∧
    ((ensureCalls tmCfgW 0 5 tmStateW).1.fetchCount = tmStateW.fetchCount + 1 ∧
     (ensureCalls tmCfgW 0 5 tmStateW).2 =
       List.replicate 5 (.awaitRenewal tmStateW.nextPid) ∧
     (renewalComplete tmCfgW 0 (.ok ⟨"tok", 3600⟩)
        (ensureCalls tmCfgW 0 5 tmStateW).1).2 =
       some (tmStateW.nextPid, some "tok")) :=
  ⟨rfl, by decide, rfl, by decide,
   C1_at_most_one_renewal tmCfgW 0 tmStateW 5 ⟨"tok", 3600⟩ rfl (by decide)
     rfl (by decide)⟩

/-- State of `tmStateW` with renewal ticket 0 outstanding (as after one
`ensureAccessToken()` call on the fresh manager). -/
def tmStateInflightW : TMState := (ensureAccessTokenStart tmCfgW 0 tmStateW).2

/-- Witness for C2 at ticket 0 with error "boom". -/
theorem C2_renewal_failure_witness :
    tmCfgW.hasFetcher = true ∧ tmStateInflightW.renewal = some 0 ∧
    (getTokenM tmCfgW 0 tmStateInflightW).1 = none ∧
    ((renewalComplete tmCfgW 0 (.err "boom") tmStateInflightW).1.renewal = none ∧
     (renewalComplete tmCfgW 0 (.err "boom") tmStateInflightW).2 = some (0, none) ∧
     (renewalComplete tmCfgW 0 (.err "boom") tmStateInflightW).1.failureCallbacks =
       tmStateInflightW.failureCallbacks ++ ["boom"] ∧
     (renewalComplete tmCfgW 0 (.ok ⟨"tok", 3600⟩) tmStateInflightW).1.renewal = none ∧
     (ensureAccessTokenStart tmCfgW 0
        (renewalComplete tmCfgW 0 (.err "boom") tmStateInflightW).1).1 =
       .awaitRenewal tmStateInflightW.nextPid ∧
     (ensureAccessTokenStart tmCfgW 0
        (renewalComplete tmCfgW 0 (.err "boom") tmStateInflightW).1).2.fetchCount =
       tmStateInflightW.fetchCount + 1) :=
  ⟨rfl, by decide, by decide,
   C2_renewal_failure tmCfgW 0 0 tmStateInflightW 0 "boom" ⟨"tok", 3600⟩ rfl
     (by decide) (by decide)⟩

/-- Witness for C3: `setToken("tok", 3600)` then `ensureAccessToken()` on a
fresh manager returns the cached token with no fetch. -/
theorem C3_fresh_token_no_fetch_witness :
    tmCfgW.expiryBuffer = 60 ∧ "tok" ≠ "" ∧
    (ensureAccessTokenStart tmCfgW 0 (setTokenM tmCfgW 0 "tok" 3600 tmStateW) =
       (.immediate (some "tok"), setTokenM tmCfgW 0 "tok" 3600 tmStateW) ∧
     (ensureAccessTokenStart tmCfgW 0
        (setTokenM tmCfgW 0 "tok" 3600 tmStateW)).2.fetchCount =
       tmStateW.fetchCount) :=
  ⟨rfl, by decide, C3_fresh_token_no_fetch tmCfgW 0 tmStateW "tok" rfl (by decide)⟩

/-- Witness for C8 over a throwing storage: set-then-get at `ttl = 3600`
still yields the token from memory, a fresh instance yields `null`, and the
remaining operations behave memory-only. -/
theorem C8_storage_unavailable_witness :
    tmStateUnW.storage.available = false ∧ (false : Bool) = false ∧
    "tok" ≠ "" ∧ (0 : Int) < 0 + 3600 * 1000 ∧
    ((getTokenM tmCfgW 0 (setTokenM tmCfgW 0 "tok" 3600 tmStateUnW)).1 = some "tok" ∧
     (setTokenM tmCfgW 0 "tok" 3600 tmStateUnW).storage = tmStateUnW.storage ∧
     (getTokenM tmCfgW 0 (initTMState ⟨false, []⟩)).1 = none ∧
     isExpiringSoonM tmCfgW 0 (setTokenM tmCfgW 0 "tok" 3600 tmStateUnW) =
       decide ((0 : Int) ≥ 0 + 3600 * 1000 - tmCfgW.expiryBuffer * 1000) ∧
     getExpiresInM tmCfgW 0 (setTokenM tmCfgW 0 "tok" 3600 tmStateUnW) =
       some (max 0 (Int.fdiv (0 + 3600 * 1000 - 0) 1000)) ∧
     (clearTokenM tmCfgW (setTokenM tmCfgW 0 "tok" 3600 tmStateUnW)).memoryToken = none ∧
     (clearTokenM tmCfgW (setTokenM tmCfgW 0 "tok" 3600 tmStateUnW)).storage =
       tmStateUnW.storage) :=
  ⟨rfl, rfl, by decide, by decide,
   C8_storage_unavailable tmCfgW 0 0 0 tmStateUnW ⟨false, []⟩ "tok" 3600 rfl rfl
     (by decide) (by decide)⟩

/-! ## OAuth flow client (`dist/oauth.js`) and callback handling
(`src/useOAuth.ts`, compiled copy `dist/useOAuth.js`)

The OAuth client accesses `sessionStorage` directly (no `try`/`catch`), so
session storage is a plain association list here.  `exchangeCode` performs
the network round trip; it is modelled by an oracle
`exchange : String → CallbackOutcome` giving, for the authorization code,
either the parsed token response or the thrown error message. -/

/-- `STORAGE_KEYS.STATE` of `dist/oauth.js`. -/
def STATE_KEY : String := "homelocal_oauth_state"

/-- `STORAGE_KEYS.RETURN_PATH` of `dist/oauth.js`. -/
def RETURN_PATH_KEY : String := "homelocal_oauth_return_path"

/-- Parsed callback query (`parseOAuthCallback`'s result shape). -/
structure CallbackQuery where
  code : Option String
  state : Option String
  error : Option String
  errorDescription : Option String
deriving DecidableEq, Repr

/-- The idiom `x || undefined` on a string-or-null value: a falsy value
(`null` or `""`) becomes `undefined`. -/
def orUndef (o : Option String) : Option String :=
  if strTruthy o then o else none

/-- `parseOAuthCallback(searchParams)`: an `error` parameter (truthy) takes
priority and yields only `error`/`errorDescription`; otherwise `code` and
`state` are extracted; `x || undefined` maps empty strings to `none`. -/
def parseOAuthCallback (params : List (String × String)) : CallbackQuery :=
  if strTruthy (getKV params "error") then
    { code := none, state := none, error := getKV params "error",
      errorDescription := orUndef (getKV params "error_description") }
  else
    { code := orUndef (getKV params "code"),
      state := orUndef (getKV params "state"),
      error := none, errorDescription := none }

/-- `validateState(returnedState)`: the stored state must exist and equal
the returned one. -/
def validateState (store : List (String × String)) (returnedState : String) : Bool :=
  match getKV store STATE_KEY with
  | none => false
  | some stored => stored = returnedState

/-- Storage effect of `initiateLogin(options)` (`dist/oauth.js` lines
76-100): persists the freshly generated CSRF state and the return path
(the explicit `returnPath` when truthy, else the current location).  The
random state generation and the full-page redirect are outside the model;
the generated state is the `state` parameter. -/
def initiateLoginStore (state : String) (returnPath : Option String)
    (currentPath : String) (store : List (String × String)) :
    List (String × String) :=
  let st1 := setKV store STATE_KEY state
  match returnPath with
  | some rp => if rp ≠ "" then setKV st1 RETURN_PATH_KEY rp
               else setKV st1 RETURN_PATH_KEY currentPath
  | none => setKV st1 RETURN_PATH_KEY currentPath

/-- `isRegistrationState(state)` of `useOAuth`: a decoded object with
`type === "registration"` and a numeric `ts` field. -/
def isRegistrationState (v : JValue) : Bool :=
  (match jGet v "type" with
   | some (.jstr t) => t = "registration"
   | _ => false) &&
  (match jGet v "ts" with
   | some (.jnum _) => true
   | _ => false)

/-- Outcome of `handleCallback()`: the resolved token response, or the
message of the thrown `Error`. -/
inductive CallbackOutcome where
  | ok (tokens : TokenResponse)
  | err (message : String)
deriving DecidableEq, Repr

/-- String coercion applied by `sessionStorage.setItem` to a decoded value
(JS `String(v)`); array elements follow `Array.prototype.toString`, where
`null` renders empty. -/
def jToString : JValue → String
  | .jnull => "null"
  | .jbool true => "true"
  | .jbool false => "false"
  | .jnum n => toString n
  | .jstr s => s
  | .jobj _ => "[object Object]"
  | .jarr elems => jArrToString elems
where
  jArrToString : List JValue → String
  | [] => ""
  | [x] => jArrElemToString x
  | x :: xs => jArrElemToString x ++ "," ++ jArrToString xs
  jArrElemToString : JValue → String
  | .jnull => ""
  | .jbool true => "true"
  | .jbool false => "false"
  | .jnum n => toString n
  | .jstr s => s
  | .jobj _ => "[object Object]"
  | .jarr elems => jArrToString elems

/-- Result of the `try { JSON.parse(atob(state)) ... }` block of
`handleCallback` in the TypeScript source (`src/useOAuth.ts` lines
171-188): `none` when the expiry error is (re)thrown, otherwise the final
value of `isRegistrationFlow`.  A decode failure is caught and swallowed
(its engine-generated message is not the expiry message). -/
def regPhaseTS (decode : String → Option JValue) (now : Int)
    (state : String) : Option Bool :=
  match decode state with
  | none => some false
  | some v =>
      if isRegistrationState v then
        match jGet v "ts" with
        | some (.jnum ts) => if now - ts > 120000 then none else some true
        | _ => some false
      else some false

/-- Result of the same `try` block in the compiled build
(`dist/useOAuth.js` lines 103-126), which additionally stores a truthy
`returnUrl` of the registration state under `RETURN_PATH` before leaving
the block: the flag together with the updated session storage. -/
def regPhaseDist (decode : String → Option JValue) (now : Int)
    (state : String) (store : List (String × String)) :
    Option (Bool × List (String × String)) :=
  match decode state with
  | none => some (false, store)
  | some v =>
      if isRegistrationState v then
        match jGet v "ts" with
        | some (.jnum ts) =>
            if now - ts > 120000 then none
            else
              match jGet v "returnUrl" with
              | some u =>
                  if jTruthy u then
                    some (true, setKV store RETURN_PATH_KEY (jToString u))
                  else some (true, store)
              | none => some (true, store)
        | _ => some (false, store)
      else some (false, store)

/-- `handleCallback()` of the TypeScript source (`src/useOAuth.ts` lines
147-204), for a configured `authServiceUrl`: parse the query, handle the
provider error and missing-parameter cases, run the registration-bypass
check, validate CSRF state for non-registration flows, exchange the code,
and clear the persisted state on every path.  Returns the outcome and the
final session storage. -/
def handleCallbackTS (decode : String → Option JValue)
    (exchange : String → CallbackOutcome) (now : Int)
    (params : List (String × String)) (store : List (String × String)) :
    CallbackOutcome × List (String × String) :=
  let q := parseOAuthCallback params
  match q.error with
  | some e => (.err (q.errorDescription.getD e), removeKV store STATE_KEY)
  | none =>
      match q.code, q.state with
      | some code, some state =>
          match regPhaseTS decode now state with
          | none =>
              (.err "Registration link expired. Please try again.",
               removeKV store STATE_KEY)
          | some isRegistrationFlow =>
              if !isRegistrationFlow && !(validateState store state) then
                (.err "Invalid state parameter. Possible CSRF attack. Please try logging in again.",
                 removeKV store STATE_KEY)
              else (exchange code, removeKV store STATE_KEY)
      | _, _ =>
          (.err "Missing authorization code or state parameter",
           removeKV store STATE_KEY)

/-- `handleCallback()` of the compiled build (`dist/useOAuth.js` lines
86-141): identical to the source except that the registration branch also
persists the state's truthy `returnUrl` under `RETURN_PATH`. -/
def handleCallbackDist (decode : String → Option JValue)
    (exchange : String → CallbackOutcome) (now : Int)
    (params : List (String × String)) (store : List (String × String)) :
    CallbackOutcome × List (String × String) :=
  let q := parseOAuthCallback params
  match q.error with
  | some e => (.err (q.errorDescription.getD e), removeKV store STATE_KEY)
  | none =>
      match q.code, q.state with
      | some code, some state =>
          match regPhaseDist decode now state store with
          | none =>
              (.err "Registration link expired. Please try again.",
               removeKV store STATE_KEY)
          | some (isRegistrationFlow, store1) =>
              if !isRegistrationFlow && !(validateState store1 state) then
                (.err "Invalid state parameter. Possible CSRF attack. Please try logging in again.",
                 removeKV store1 STATE_KEY)
              else (exchange code, removeKV store1 STATE_KEY)
      | _, _ =>
          (.err "Missing authorization code or state parameter",
           removeKV store STATE_KEY)

/-! ### OAuth callback lemmas -/

theorem handleCallbackTS_clears (decode : String → Option JValue)
    (exchange : String → CallbackOutcome) (now : Int)
    (params store : List (String × String)) :
    (handleCallbackTS decode exchange now params store).2 =
      removeKV store STATE_KEY := by
  unfold handleCallbackTS
  rcases parseOAuthCallback params with ⟨qc, qs, qe, qd⟩
  cases qe with
  | some e => rfl
  | none =>
      cases qc with
      | none => cases qs <;> simp
      | some code =>
          cases qs with
          | none => simp
          | some st =>
              cases hreg : regPhaseTS decode now st with
              | none => simp [hreg]
              | some b =>
                  simp only [hreg]
                  split <;> simp

theorem parse_code_state (c s0 : String) (hc : c ≠ "") (hs0 : s0 ≠ "") :
    parseOAuthCallback [("code", c), ("state", s0)] =
      ⟨some c, some s0, none, none⟩ := by
  unfold parseOAuthCallback
  simp [getKV, orUndef, strTruthy, hc, hs0]

theorem initiateLogin_stores_state (s0 cp : String) (rp : Option String)
    (store : List (String × String)) :
    getKV (initiateLoginStore s0 rp cp store) STATE_KEY = some s0 := by
  have hne : RETURN_PATH_KEY ≠ STATE_KEY := by decide
  unfold initiateLoginStore
  cases rp with
  | none => rw [getKV_setKV_other _ _ _ _ hne, getKV_setKV_self]
  | some r =>
      dsimp only
      split <;> rw [getKV_setKV_other _ _ _ _ hne, getKV_setKV_self]

/-- C5: the persisted CSRF state is single-use.  (1) After `initiateLogin`
persisted state `s0`, a callback carrying exactly that state (with a
well-formed code and a state that is not a decodable registration payload)
passes validation and proceeds to the code exchange; (2) every execution of
`handleCallback` leaves the storage without a persisted state; (3) on a
storage with no persisted state — such as after any previous
`handleCallback` run — the same callback fails CSRF validation. -/
theorem C5_state_single_use (decode : String → Option JValue)
    (exchange : String → CallbackOutcome) (now now2 : Int)
    (s0 c cp : String) (rp : Option String)
    (store store2 params : List (String × String))
    (hd : decode s0 = none) (hs0 : s0 ≠ "") (hc : c ≠ "")
    (hcleared : getKV store2 STATE_KEY = none) :
    handleCallbackTS decode exchange now [("code", c), ("state", s0)]
        (initiateLoginStore s0 rp cp store) =
      (exchange c, removeKV (initiateLoginStore s0 rp cp store) STATE_KEY) ∧
    getKV (handleCallbackTS decode exchange now params store).2 STATE_KEY = none ∧
    handleCallbackTS decode exchange now2 [("code", c), ("state", s0)] store2 =
      (.err "Invalid state parameter. Possible CSRF attack. Please try logging in again.",
       removeKV store2 STATE_KEY) := by
  have hparse := parse_code_state c s0 hc hs0
  have hreg : regPhaseTS decode now s0 = some false := by
    unfold regPhaseTS; rw [hd]
  have hreg2 : regPhaseTS decode now2 s0 = some false := by
    unfold regPhaseTS; rw [hd]
  refine ⟨?_, ?_, ?_⟩
  · unfold handleCallbackTS
    rw [hparse]
    dsimp only
    rw [hreg]
    have hv : validateState (initiateLoginStore s0 rp cp store) s0 = true := by
      unfold validateState
      rw [initiateLogin_stores_state]
      simp
    simp [hv]
  · rw [handleCallbackTS_clears, getKV_removeKV_self]
  · unfold handleCallbackTS
    rw [hparse]
    dsimp only
    rw [hreg2]
    have hv : validateState store2 s0 = false := by
      unfold validateState
      rw [hcleared]
    simp [hv]

/-- Witness for C5 with state "abc", code "c": first callback after
`initiateLogin` succeeds with the exchange result, any run clears the
stored state, and a replay on the cleared storage fails CSRF validation. -/
theorem C5_state_single_use_witness :
    (fun _ : String => (none : Option JValue)) "abc" = none ∧
    "abc" ≠ "" ∧ "c" ≠ "" ∧
    getKV [] STATE_KEY = none ∧
    (handleCallbackTS (fun _ => none) (fun _ => .ok ⟨"at", 3600⟩) 0
        [("code", "c"), ("state", "abc")]
        (initiateLoginStore "abc" none "/cur" []) =
      ((fun _ : String => CallbackOutcome.ok ⟨"at", 3600⟩) "c",
       removeKV (initiateLoginStore "abc" none "/cur" []) STATE_KEY) ∧
     getKV (handleCallbackTS (fun _ => none) (fun _ => .ok ⟨"at", 3600⟩) 0
        [("error", "denied")] []).2 STATE_KEY = none ∧
     handleCallbackTS (fun _ => none) (fun _ => .ok ⟨"at", 3600⟩) 0
        [("code", "c"), ("state", "abc")] [] =
      (.err "Invalid state parameter. Possible CSRF attack. Please try logging in again.",
       removeKV [] STATE_KEY)) :=
  ⟨rfl, by decide, by decide, rfl,
   C5_state_single_use (fun _ => none) (fun _ => .ok ⟨"at", 3600⟩) 0 0
     "abc" "c" "/cur" none [] [] [("error", "denied")] rfl (by decide)
     (by decide) rfl⟩

/-- C4 (amended): for a callback whose state decodes to a registration
payload with numeric `ts`, `handleCallbackTS` skips the CSRF comparison and
proceeds to the code exchange if and only if `Date.now() - ts ≤ 120000`
(so `ts` is in epoch-milliseconds and at most 120 s in the past; future
timestamps are accepted); otherwise it fails with the link-expired error.
In both cases the persisted CSRF state is cleared. -/
theorem C4_registration_window (decode : String → Option JValue)
    (exchange : String → CallbackOutcome) (now : Int)
    (params store : List (String × String)) (c st : String)
    (v : JValue) (n : Int)
    (hq : parseOAuthCallback params = ⟨some c, some st, none, none⟩)
    (hd : decode st = some v) (hreg : isRegistrationState v = true)
    (hts : jGet v "ts" = some (.jnum n)) :
    handleCallbackTS decode exchange now params store =
      ((if now - n > 120000
        then .err "Registration link expired. Please try again."
        else exchange c),
       removeKV store STATE_KEY) := by
  have hphase : regPhaseTS decode now st =
      (if now - n > 120000 then none else some true) := by
    unfold regPhaseTS
    rw [hd]
    simp [hreg, hts]
  unfold handleCallbackTS
  rw [hq]
  dsimp only
  rw [hphase]
  by_cases hage : now - n > 120000 <;> simp [hage]

/-- Decoded registration payload whose `ts` is the epoch-seconds value of
the instant 1700000000000 ms. -/
def regStateSecW : JValue :=
  .jobj [("type", .jstr "registration"), ("returnUrl", .jstr "/x"),
         ("ts", .jnum 1700000000)]

/-- Concrete decode oracle: the state string "REGSEC" decodes to
`regStateSecW`. -/
def decodeSecW : String → Option JValue :=
  fun s => if s = "REGSEC" then some regStateSecW else none

/-- Concrete exchange oracle that always succeeds. -/
def exchangeW : String → CallbackOutcome := fun _ => .ok ⟨"at", 3600⟩

/-- C4 counterexample: at processing instant 1700000000000 ms, a callback
whose state decodes to a registration payload with `ts = 1700000000` — the
very same instant expressed in epoch-seconds, hence within 120 seconds of
processing time — is rejected as expired, because the code computes
`Date.now() - ts` in milliseconds.  The claim, which reads `ts` as
epoch-seconds and predicts acceptance, is false. -/
theorem C4_counterexample :
    handleCallbackTS decodeSecW exchangeW 1700000000000
      [("code", "c"), ("state", "REGSEC")] [] =
      (.err "Registration link expired. Please try again.", []) := by decide

/-- Decoded registration payload whose `ts` is 60 s in the past of the
instant 1700000000000 ms, in epoch-milliseconds. -/
def regStateMsW : JValue :=
  .jobj [("type", .jstr "registration"), ("returnUrl", .jstr "/x"),
         ("ts", .jnum 1699999940000)]

/-- Concrete decode oracle: the state string "REGMS" decodes to
`regStateMsW`. -/
def decodeMsW : String → Option JValue :=
  fun s => if s = "REGMS" then some regStateMsW else none

/-- Witness for the amended C4: a registration state 60 s old in
epoch-milliseconds is accepted (CSRF comparison skipped although no state
is persisted) and the callback resolves with the exchange result. -/
theorem C4_registration_window_witness :
    parseOAuthCallback [("code", "c"), ("state", "REGMS")] =
      ⟨some "c", some "REGMS", none, none⟩ ∧
    decodeMsW "REGMS" = some regStateMsW ∧
    isRegistrationState regStateMsW = true ∧
    jGet regStateMsW "ts" = some (.jnum 1699999940000) ∧
    handleCallbackTS decodeMsW exchangeW 1700000000000
        [("code", "c"), ("state", "REGMS")] [] =
      ((if (1700000000000 : Int) - 1699999940000 > 120000
        then .err "Registration link expired. Please try again."
        else exchangeW "c"),
       removeKV [] STATE_KEY) :=
  ⟨by decide, rfl, by decide, rfl,
   C4_registration_window decodeMsW exchangeW 1700000000000
     [("code", "c"), ("state", "REGMS")] [] "c" "REGMS" regStateMsW
     1699999940000 (by decide) rfl (by decide) rfl⟩

/-! ### Refinement between the compiled and source `handleCallback` (C10) -/

/-- The return path stored by the compiled build's registration branch, if
any: defined when the state decodes to an unexpired registration payload
carrying a truthy `returnUrl`. -/
def regUrl (decode : String → Option JValue) (now : Int) (st : String) :
    Option String :=
  match decode st with
  | none => none
  | some v =>
      if isRegistrationState v then
        match jGet v "ts" with
        | some (.jnum n) =>
            if now - n > 120000 then none
            else
              match jGet v "returnUrl" with
              | some u => if jTruthy u then some (jToString u) else none
              | none => none
        | _ => none
      else none

theorem regPhaseDist_eq (decode : String → Option JValue) (now : Int)
    (st : String) (store : List (String × String)) :
    regPhaseDist decode now st store =
      match regPhaseTS decode now st with
      | none => none
      | some b =>
          match regUrl decode now st with
          | none => some (b, store)
          | some u => some (b, setKV store RETURN_PATH_KEY u) := by
  unfold regPhaseTS regPhaseDist regUrl
  cases hd : decode st with
  | none => rfl
  | some v =>
      by_cases hreg : isRegistrationState v = true
      · simp only [hreg, if_true]
        cases hts : jGet v "ts" with
        | none => rfl
        | some w =>
            cases w with
            | jnum n =>
                by_cases hage : now - n > 120000
                · simp [hage]
                · simp only [hage, if_false]
                  cases hurl : jGet v "returnUrl" with
                  | none => simp
                  | some u =>
                      by_cases htr : jTruthy u = true <;> simp [htr]
            | jnull => rfl
            | jbool b => rfl
            | jstr s => rfl
            | jarr elems => rfl
            | jobj fields => rfl
      · simp [hreg]

theorem regUrl_some_true (decode : String → Option JValue) (now : Int)
    (st : String) (u : String) (h : regUrl decode now st = some u) :
    regPhaseTS decode now st = some true := by
  unfold regPhaseTS
  unfold regUrl at h
  cases hd : decode st with
  | none => rw [hd] at h; exact absurd h (by simp)
  | some v =>
      rw [hd] at h
      by_cases hreg : isRegistrationState v = true
      · simp only [hreg, if_true] at h ⊢
        cases hts : jGet v "ts" with
        | none => rw [hts] at h; exact absurd h (by simp)
        | some w =>
            rw [hts] at h
            cases w with
            | jnum n =>
                by_cases hage : now - n > 120000
                · simp [hage] at h
                · simp [hage]
            | jnull => exact absurd h (by simp)
            | jbool b => exact absurd h (by simp)
            | jstr s => exact absurd h (by simp)
            | jarr elems => exact absurd h (by simp)
            | jobj fields => exact absurd h (by simp)
      · simp [hreg] at h

/-- The return path persisted by the compiled build but not by the source,
as a function of the whole callback query: the `regUrl` of the state when
the query carries a code and a state and no provider error. -/
def regBypassReturnPath (decode : String → Option JValue) (now : Int)
    (params : List (String × String)) : Option String :=
  match parseOAuthCallback params with
  | ⟨some _, some st, none, _⟩ => regUrl decode now st
  | _ => none

/-- C10 (amended): for every callback query and initial session storage the
compiled build's `handleCallback` and the TypeScript source's compute the
same outcome (same token response or same thrown error message); the final
session storages also coincide except on a callback accepted through the
registration bypass with a truthy `returnUrl`, where the compiled build
additionally persists that `returnUrl` under the return-path key while the
source does not. -/
theorem C10_dist_refines_source (decode : String → Option JValue)
    (exchange : String → CallbackOutcome) (now : Int)
    (params store : List (String × String)) :
    (handleCallbackDist decode exchange now params store).1 =
      (handleCallbackTS decode exchange now params store).1 ∧
    (handleCallbackDist decode exchange now params store).2 =
      (match regBypassReturnPath decode now params with
       | none => (handleCallbackTS decode exchange now params store).2
       | some u => removeKV (setKV store RETURN_PATH_KEY u) STATE_KEY) := by
  unfold handleCallbackDist handleCallbackTS regBypassReturnPath
  rcases hq : parseOAuthCallback params with ⟨qc, qs, qe, qd⟩
  cases qe with
  | some e => cases qc <;> cases qs <;> exact ⟨rfl, rfl⟩
  | none =>
      cases qc with
      | none => cases qs <;> exact ⟨rfl, rfl⟩
      | some code =>
          cases qs with
          | none => exact ⟨rfl, rfl⟩
          | some st =>
              dsimp only
              rw [regPhaseDist_eq]
              cases hurl : regUrl decode now st with
              | some u =>
                  have hts := regUrl_some_true decode now st u hurl
                  rw [hts]
                  exact ⟨rfl, rfl⟩
              | none =>
                  cases hts : regPhaseTS decode now st with
                  | none => exact ⟨rfl, rfl⟩
                  | some b => exact ⟨rfl, rfl⟩

/-- C10 counterexample: on a callback accepted through the registration
bypass whose decoded state carries `returnUrl = "/x"`, the compiled build
leaves a return-path entry in session storage that the TypeScript source
does not, so the two `handleCallback`s do not leave identical storage. -/
theorem C10_counterexample :
    (handleCallbackDist decodeMsW exchangeW 1700000000000
       [("code", "c"), ("state", "REGMS")] []).2 ≠
    (handleCallbackTS decodeMsW exchangeW 1700000000000
       [("code", "c"), ("state", "REGMS")] []).2 := by decide

/-! ## Silent-auth negotiator (`dist/silentAuth.js`)

`trySilentAuth` installs a `message` listener, a timeout and an iframe
error handler, all closing over a `resolved` flag and a `cleanup` function.
We model the attempt as a state machine: `saStep` processes one event of
the environment (a `message` event, the timer firing, or the iframe error
handler firing) exactly as the corresponding source handler does.
`resolveCount` counts the calls of the promise's `resolve`, `result`
records the value of the first one.  A message event reaches `handleMessage`
only while the listener is attached (`cleanup` removes it); the timer fires
at most once (`timerActive`), and `clearTimeout` in the iframe error path
deactivates it. -/

/-- Result shape delivered by `trySilentAuth`'s promise; absent fields are
`none`, and fields copied from the message payload keep their decoded
value. -/
structure SilentAuthResult where
  success : Bool
  code : Option JValue
  state : Option JValue
  error : Option JValue
  errorDescription : Option JValue

/-- Configuration visible to the handlers: the auth service's origin
(`new URL(config.authServiceUrl).origin`) and the generated random
`originalState`. -/
structure SAConfig where
  authOrigin : String
  originalState : String

/-- State of one `trySilentAuth` attempt after setup (listener installed,
iframe appended, timer pending, promise unsettled). -/
structure AttemptState where
  resolved : Bool
  listenerAttached : Bool
  iframeAttached : Bool
  timerActive : Bool
  result : Option SilentAuthResult
  resolveCount : Nat

/-- Events delivered to the attempt by the environment. -/
inductive SAEvent where
  | message (origin : String) (data : JValue)
  | timeoutFire
  | iframeError

/-- `isSilentCallbackMessage(data)`: an object whose `type` field is the
fixed discriminant tag. -/
def isSilentCallbackMessage (d : JValue) : Bool :=
  match jGet d "type" with
  | some (.jstr t) => t = "iriai_silent_auth_callback"
  | _ => false

/-- The three checks of `handleMessage`: the event origin equals the auth
service's origin, the payload carries the discriminant tag, and the
payload's `state` strictly equals the originally generated state. -/
def msgValid (cfg : SAConfig) (origin : String) (data : JValue) : Bool :=
  (origin = cfg.authOrigin : Bool) && isSilentCallbackMessage data &&
    (match jGet data "state" with
     | some (.jstr t) => t = cfg.originalState
     | _ => false)

/-- The resolution value produced by `handleMessage` for a valid payload:
success carrying the code when `event.data.code` is truthy, a structured
failure otherwise. -/
def messageResult (data : JValue) : SilentAuthResult :=
  if jTruthyOpt (jGet data "code") then
    { success := true, code := jGet data "code", state := jGet data "state",
      error := none, errorDescription := none }
  else
    { success := false, code := none, state := jGet data "state",
      error := jGet data "error",
      errorDescription := jGet data "errorDescription" }

/-- The timeout resolution value. -/
def timeoutResult : SilentAuthResult :=
  { success := false, code := none, state := none,
    error := some (.jstr "timeout"),
    errorDescription := some (.jstr "Silent authentication timed out") }

/-- The iframe-error resolution value. -/
def iframeErrorResult : SilentAuthResult :=
  { success := false, code := none, state := none,
    error := some (.jstr "iframe_error"),
    errorDescription := some (.jstr "Failed to load authentication iframe") }

/-- `cleanup()`: detach the listener and remove the iframe. -/
def saCleanup (s : AttemptState) : AttemptState :=
  { s with listenerAttached := false, iframeAttached := false }

/-- One event processed by the attempt, exactly as the source handlers do:
`handleMessage` runs only while the listener is attached and ignores any
message failing `msgValid`; the timer body runs once and checks `resolved`;
`iframe.onerror` checks `resolved` and also clears the timer. -/
def saStep (cfg : SAConfig) (s : AttemptState) : SAEvent → AttemptState
  | .message origin data =>
      if s.listenerAttached then
        if msgValid cfg origin data then
          { saCleanup s with
            resolved := true
            result := some (messageResult data)
            resolveCount := s.resolveCount + 1 }
        else s
      else s
  | .timeoutFire =>
      if s.timerActive then
        if !s.resolved then
          { saCleanup s with
            timerActive := false
            resolved := true
            result := some timeoutResult
            resolveCount := s.resolveCount + 1 }
        else { s with timerActive := false }
      else s
  | .iframeError =>
      if !s.resolved then
        { saCleanup s with
          timerActive := false
          resolved := true
          result := some iframeErrorResult
          resolveCount := s.resolveCount + 1 }
      else s

/-- Attempt state right after `trySilentAuth`'s synchronous setup. -/
def saInit : AttemptState :=
  { resolved := false, listenerAttached := true, iframeAttached := true,
    timerActive := true, result := none, resolveCount := 0 }

/-- The attempt after a sequence of environment events. -/
def runSA (cfg : SAConfig) (events : List SAEvent) : AttemptState :=
  events.foldl (saStep cfg) saInit

/-- Events that never resolve the attempt themselves: messages failing the
triple check, and timer firings; the iframe error is not benign. -/
def benignEvent (cfg : SAConfig) : SAEvent → Bool
  | .message origin data => !(msgValid cfg origin data)
  | .timeoutFire => true
  | .iframeError => false

/-- Recognizer for the timer event. -/
def isTimeoutEvent : SAEvent → Bool
  | .timeoutFire => true
  | _ => false

/-! ### Silent-auth invariants -/

/-- Invariant of a reachable attempt state: while unsettled nothing has
been resolved and all resources are live; once settled, `resolve` has run
exactly once, a result is recorded, and listener and iframe are gone. -/
def saInv (s : AttemptState) : Prop :=
  (s.resolved = false → s.resolveCount = 0 ∧ s.result = none ∧
     s.listenerAttached = true ∧ s.iframeAttached = true ∧
     s.timerActive = true) ∧
  (s.resolved = true → s.resolveCount = 1 ∧ s.result.isSome = true ∧
     s.listenerAttached = false ∧ s.iframeAttached = false)

theorem saStep_inv (cfg : SAConfig) (s : AttemptState) (e : SAEvent)
    (h : saInv s) : saInv (saStep cfg s e) := by
  obtain ⟨h0, h1⟩ := h
  cases e with
  | message origin data =>
      cases hr : s.resolved with
      | true =>
          have hl : s.listenerAttached = false := (h1 hr).2.2.1
          simp only [saStep, hl]
          exact ⟨h0, h1⟩
      | false =>
          obtain ⟨hc, hre, hl, hi, htm⟩ := h0 hr
          by_cases hv : msgValid cfg origin data = true
          · simp [saStep, saInv, saCleanup, hl, hv, hc]
          · simp only [saStep, hl, Bool.not_eq_true] at hv ⊢
            simp [hv]
            exact ⟨h0, h1⟩
  | timeoutFire =>
      cases hr : s.resolved with
      | true =>
          by_cases htm : s.timerActive = true
          · have hstep : saStep cfg s .timeoutFire = { s with timerActive := false } := by
              simp [saStep, hr, htm]
            rw [hstep]
            refine ⟨fun hx => ?_, fun _ => h1 hr⟩
            exact absurd (show s.resolved = false from hx) (by simp [hr])
          · simp only [saStep, Bool.not_eq_true] at htm ⊢
            simp [htm]
            exact ⟨h0, h1⟩
      | false =>
          obtain ⟨hc, hre, hl, hi, htm⟩ := h0 hr
          simp [saStep, saInv, saCleanup, hr, htm, hc]
  | iframeError =>
      cases hr : s.resolved with
      | true =>
          simp only [saStep, hr]
          simp
          exact ⟨h0, h1⟩
      | false =>
          obtain ⟨hc, hre, hl, hi, htm⟩ := h0 hr
          simp [saStep, saInv, saCleanup, hr, hc]

theorem foldl_saInv (cfg : SAConfig) (events : List SAEvent) :
    ∀ s : AttemptState, saInv s → saInv (events.foldl (saStep cfg) s) := by
  induction events with
  | nil => intro s h; exact h
  | cons e rest ih => intro s h; exact ih _ (saStep_inv cfg s e h)

theorem saInv_init : saInv saInit := by
  constructor <;> intro h <;> simp_all [saInit]

theorem runSA_inv (cfg : SAConfig) (events : List SAEvent) :
    saInv (runSA cfg events) :=
  foldl_saInv cfg events saInit saInv_init

theorem foldl_timeout (cfg : SAConfig) :
    ∀ (events : List SAEvent) (s : AttemptState), saInv s →
    (∀ e ∈ events, benignEvent cfg e = true) →
    (s.result = none ∧ events.any isTimeoutEvent = true ∨
      s.result = some timeoutResult) →
    (events.foldl (saStep cfg) s).result = some timeoutResult := by
  intro events
  induction events with
  | nil =>
      intro s hinv hall hd
      rcases hd with ⟨-, hany⟩ | hres
      · simp at hany
      · simpa using hres
  | cons e rest ih =>
      intro s hinv hall hd
      rw [List.foldl_cons]
      have hrest : ∀ e2 ∈ rest, benignEvent cfg e2 = true :=
        fun e2 he => hall e2 (List.mem_cons_of_mem _ he)
      have hhead := hall e (List.mem_cons_self e rest)
      cases e with
      | message origin data =>
          have hv : msgValid cfg origin data = false := by
            simpa [benignEvent] using hhead
          have hstep : saStep cfg s (.message origin data) = s := by
            simp [saStep, hv]
          rw [hstep]
          refine ih s hinv hrest ?_
          rcases hd with ⟨hres, hany⟩ | hres
          · exact Or.inl ⟨hres, by simpa [isTimeoutEvent] using hany⟩
          · exact Or.inr hres
      | timeoutFire =>
          cases hr : s.resolved with
          | true =>
              rcases hd with ⟨hres, -⟩ | hres
              · have := (hinv.2 hr).2.1
                rw [hres] at this
                simp at this
              · have hstep_res : (saStep cfg s .timeoutFire).result = s.result := by
                  simp only [saStep, hr]
                  simp
                  split <;> rfl
                refine ih _ (saStep_inv cfg s .timeoutFire hinv) hrest ?_
                exact Or.inr (hstep_res.trans hres)
          | false =>
              obtain ⟨hc, hre, hl, hi, htm⟩ := hinv.1 hr
              have hstep_res :
                  (saStep cfg s .timeoutFire).result = some timeoutResult := by
                simp [saStep, hr, htm]
              refine ih _ (saStep_inv cfg s .timeoutFire hinv) hrest ?_
              exact Or.inr hstep_res
      | iframeError =>
          simp [benignEvent] at hhead

/-- C6: a `message` event is acted on exactly when the event origin equals
the auth service's origin, the payload carries the discriminant tag, and
the payload's `state` equals the originally generated state (the `msgValid`
triple check): a failing message leaves the attempt state completely
unchanged, a passing one settles the promise with the message's result and
tears down listener and iframe.  When every message of the attempt fails
the check (and the iframe does not error), the attempt resolves only via
the timeout path. -/
theorem C6_message_filter (cfg : SAConfig) (s : AttemptState)
    (origin : String) (data : JValue) (events : List SAEvent)
    (hls : s.listenerAttached = true)
    (hall : ∀ e ∈ events, benignEvent cfg e = true)
    (ht : events.any isTimeoutEvent = true) :
    saStep cfg s (.message origin data) =
      (if msgValid cfg origin data then
        { s with
          resolved := true
          listenerAttached := false
          iframeAttached := false
          result := some (messageResult data)
          resolveCount := s.resolveCount + 1 }
       else s) ∧
    (runSA cfg events).result = some timeoutResult := by
  constructor
  · dsimp only [saStep]
    rw [hls]
    rfl
  · exact foldl_timeout cfg events saInit saInv_init hall (Or.inl ⟨rfl, ht⟩)

/-- C7: over any event interleaving, the attempt's promise settles at most
once (`resolve` runs at most once; once settled, further events change
nothing), listener and iframe are detached exactly when a result has been
recorded, the pure-timeout interleaving resolves with
`{success := false, error := "timeout"}`, and cleanup is idempotent. -/
theorem C7_timeout_and_cleanup (cfg : SAConfig)
    (events events2 : List SAEvent)
    (hall : ∀ e ∈ events2, benignEvent cfg e = true)
    (ht : events2.any isTimeoutEvent = true) :
    (runSA cfg events).resolveCount ≤ 1 ∧
    (runSA cfg events).listenerAttached = !(runSA cfg events).result.isSome ∧
    (runSA cfg events).iframeAttached = !(runSA cfg events).result.isSome ∧
    (runSA cfg events2).result = some timeoutResult ∧
    (∀ t : AttemptState, saCleanup (saCleanup t) = saCleanup t) := by
  have hinv := runSA_inv cfg events
  have hcount : (runSA cfg events).resolveCount ≤ 1 := by
    cases hr : (runSA cfg events).resolved with
    | false => rw [(hinv.1 hr).1]; omega
    | true => rw [(hinv.2 hr).1]
  have hl : (runSA cfg events).listenerAttached =
      !(runSA cfg events).result.isSome := by
    cases hr : (runSA cfg events).resolved with
    | false =>
        obtain ⟨-, hres, hl, -, -⟩ := hinv.1 hr
        rw [hl, hres]
        rfl
    | true =>
        obtain ⟨-, hres, hl, -⟩ := hinv.2 hr
        rw [hl, hres]
        rfl
  have hi : (runSA cfg events).iframeAttached =
      !(runSA cfg events).result.isSome := by
    cases hr : (runSA cfg events).resolved with
    | false =>
        obtain ⟨-, hres, -, hi, -⟩ := hinv.1 hr
        rw [hi, hres]
        rfl
    | true =>
        obtain ⟨-, hres, -, hi⟩ := hinv.2 hr
        rw [hi, hres]
        rfl
  exact ⟨hcount, hl, hi,
    foldl_timeout cfg events2 saInit saInv_init hall (Or.inl ⟨rfl, ht⟩),
    fun t => rfl⟩

/-- Concrete silent-auth configuration for witnesses. -/
def saCfgW : SAConfig := ⟨"https://auth.example", "st8"⟩

/-- Well-formed silent-callback payload carrying a code and the expected
state. -/
def saDataW : JValue :=
  .jobj [("type", .jstr "iriai_silent_auth_callback"),
         ("state", .jstr "st8"), ("code", .jstr "c0")]

/-- Witness for C6: the well-formed payload from a non-matching origin is
ignored and the run consisting of that message plus the timer firing
resolves with the timeout result. -/
theorem C6_message_filter_witness :
    saInit.listenerAttached = true ∧
    (∀ e ∈ [SAEvent.message "https://evil.example" saDataW,
            SAEvent.timeoutFire], benignEvent saCfgW e = true) ∧
    ([SAEvent.message "https://evil.example" saDataW,
      SAEvent.timeoutFire].any isTimeoutEvent = true) ∧
    (saStep saCfgW saInit (.message "https://evil.example" saDataW) =
      (if msgValid saCfgW "https://evil.example" saDataW then
        { saInit with
          resolved := true
          listenerAttached := false
          iframeAttached := false
          result := some (messageResult saDataW)
          resolveCount := saInit.resolveCount + 1 }
       else saInit) ∧
     (runSA saCfgW [SAEvent.message "https://evil.example" saDataW,
        SAEvent.timeoutFire]).result = some timeoutResult) :=
  ⟨rfl, by decide, by decide,
   C6_message_filter saCfgW saInit "https://evil.example" saDataW
     [SAEvent.message "https://evil.example" saDataW, SAEvent.timeoutFire]
     rfl (by decide) (by decide)⟩

/-- Witness for C7: a run with a valid message followed by the timer firing
settles once with detached resources, and the benign run resolves with the
timeout result. -/
theorem C7_timeout_and_cleanup_witness :
    (∀ e ∈ [SAEvent.timeoutFire, SAEvent.message "https://evil.example" saDataW],
        benignEvent saCfgW e = true) ∧
    ([SAEvent.timeoutFire,
      SAEvent.message "https://evil.example" saDataW].any isTimeoutEvent = true) ∧
    ((runSA saCfgW [SAEvent.message "https://auth.example" saDataW,
        SAEvent.timeoutFire]).resolveCount ≤ 1 ∧
     (runSA saCfgW [SAEvent.message "https://auth.example" saDataW,
        SAEvent.timeoutFire]).listenerAttached =
       !(runSA saCfgW [SAEvent.message "https://auth.example" saDataW,
          SAEvent.timeoutFire]).result.isSome ∧
     (runSA saCfgW [SAEvent.message "https://auth.example" saDataW,
        SAEvent.timeoutFire]).iframeAttached =
       !(runSA saCfgW [SAEvent.message "https://auth.example" saDataW,
          SAEvent.timeoutFire]).result.isSome ∧
     (runSA saCfgW [SAEvent.timeoutFire,
        SAEvent.message "https://evil.example" saDataW]).result =
       some timeoutResult ∧
     (∀ t : AttemptState, saCleanup (saCleanup t) = saCleanup t)) :=
  ⟨by decide, by decide,
   C7_timeout_and_cleanup saCfgW
     [SAEvent.message "https://auth.example" saDataW, SAEvent.timeoutFire]
     [SAEvent.timeoutFire, SAEvent.message "https://evil.example" saDataW]
     (by decide) (by decide)⟩

/-! ## HTTP client retry interceptor (`src/axios.ts`)

The response-error interceptor of `createAuthenticatedClient` decides, for
a failed request carrying retry count `retryCount` (the `x-retry-count`
header) and an optional response status (`none` is a network error with no
response), whether to re-issue the request after a backoff delay or to
reject; on rejection a 401 status invokes `onUnauthorized` before the
rejection propagates. -/

/-- `RETRY_CONFIG.retryableStatuses`. -/
def retryableStatuses : List Nat := [408, 429, 500, 502, 503, 504]

/-- The `shouldRetry` condition of the response interceptor:
`retryCount < RETRY_CONFIG.maxRetries && (!error.response ||
(status && retryableStatuses.includes(status)))`. -/
def shouldRetry (retryCount : Nat) (responseStatus : Option Nat) : Bool :=
  decide (retryCount < 2) &&
    (responseStatus.isNone ||
      match responseStatus with
      | some status => decide (status ≠ 0) && retryableStatuses.contains status
      | none => false)

/-- What the interceptor does with the failed request. -/
inductive RetryDecision where
  | retry (newRetryCount : Nat) (delayMs : Nat)
  | reject (unauthorizedInvoked : Bool)
deriving DecidableEq, Repr

/-- The response-error interceptor (`src/axios.ts` lines 121-156), for a
request whose config is present: retry with incremented count after
`retryDelay * 2 ^ retryCount` ms, or reject, invoking `onUnauthorized`
exactly when the status is 401. -/
def responseErrorInterceptor (retryCount : Nat) (responseStatus : Option Nat) :
    RetryDecision :=
  if shouldRetry retryCount responseStatus then
    .retry (retryCount + 1) (1000 * 2 ^ retryCount)
  else
    .reject (responseStatus = some 401)

/-- C9: a failed request is retried exactly when the retry count is below 2
and the failure is a network error (no response) or a response with status
in {408, 429, 500, 502, 503, 504}; the backoff before the retry is
`1000 ms × 2 ^ retryCount`; a 401 response is never retried and the
rejection carries the `onUnauthorized` invocation. -/
theorem C9_retry_policy (retryCount : Nat) (responseStatus : Option Nat) :
    (responseErrorInterceptor retryCount responseStatus =
        .retry (retryCount + 1) (1000 * 2 ^ retryCount) ↔
      retryCount < 2 ∧ (responseStatus = none ∨
        ∃ status, responseStatus = some status ∧ status ∈ retryableStatuses)) ∧
    responseErrorInterceptor retryCount (some 401) = .reject true ∧
    (∀ d, responseErrorInterceptor retryCount responseStatus = .reject d →
      d = (responseStatus = some 401 : Bool)) := by
  refine ⟨?_, ?_, ?_⟩
  · constructor
    · intro h
      unfold responseErrorInterceptor at h
      split at h
      · next hs =>
          simp only [shouldRetry, Bool.and_eq_true, decide_eq_true_eq,
            Bool.or_eq_true, Option.isNone_iff_eq_none] at hs
          refine ⟨hs.1, ?_⟩
          rcases hs.2 with hnone | hmatch
          · exact Or.inl hnone
          · cases responseStatus with
            | none => exact Or.inl rfl
            | some status =>
                simp only [Bool.and_eq_true, decide_eq_true_eq] at hmatch
                exact Or.inr ⟨status, rfl, List.elem_iff.mp hmatch.2⟩
      · exact absurd h (by simp)
    · intro ⟨hlt, hdisj⟩
      have hs : shouldRetry retryCount responseStatus = true := by
        rcases hdisj with hnone | ⟨status, hstat, hmem⟩
        · subst hnone
          simp [shouldRetry, hlt]
        · subst hstat
          have hne : status ≠ 0 := by
            intro hz
            subst hz
            simp [retryableStatuses] at hmem
          simp [shouldRetry, hlt, hne, List.elem_iff]
          exact hmem
      unfold responseErrorInterceptor
      rw [hs]
      simp
  · have hns : shouldRetry retryCount (some 401) = false := by
      simp [shouldRetry, retryableStatuses]
    unfold responseErrorInterceptor
    rw [hns]
    simp
  · intro d h
    unfold responseErrorInterceptor at h
    split at h
    · exact absurd h (by simp)
    · exact (RetryDecision.reject.injEq _ _ ▸ h).symm ▸ rfl

end HomelocalAuth
